import Mathlib

/-!
Shallow embedding of the IG_viral pipeline (src/config.py, src/scraper.py,
src/downloader.py, src/transcriber.py, src/script_generator.py, src/main.py)
and proofs about the behaviour its specification describes.

External collaborators (the Instagram enumeration library, yt-dlp, the Whisper
model, the language-model HTTP clients) are abstracted as oracle parameters;
everything the repository's own code does with their results is translated
directly from the Python source.
-/

/-! ### JSON values and Python exception behaviour

`json.loads` produces Python values; we embed them as a `Json` tree.
JSON numbers are embedded at integer precision (the repository's parsing code
only ever converts the `estimated_duration_seconds` field with `int(...)`,
and every claim-relevant input uses integer or non-numeric values). -/

inductive Json where
  | null : Json
  | bool (b : Bool) : Json
  | num (n : Int) : Json
  | str (s : String) : Json
  | arr (elems : List Json) : Json
  | obj (fields : List (String × Json)) : Json

/-- The Python exceptions that the embedded code can raise or catch. -/
inductive PyExc where
  | keyError : PyExc
  | valueError : PyExc
  | typeError : PyExc
  | attributeError : PyExc
deriving DecidableEq, Repr

/-- First binding of a key in a Python dict (later duplicate keys from
`json.loads` overwrite the value but the claims never use duplicates). -/
def lookupField (k : String) : List (String × Json) → Option Json
  | [] => none
  | kv :: rest => if kv.1 = k then some kv.2 else lookupField k rest

/-- Python `item.get(key, default)`.  On a dict it returns the stored value or
the default; on any non-dict value attribute lookup of `.get` raises
`AttributeError` (src/script_generator.py lines 140-148 assume `item` is a
dict; `json.loads` gives no such guarantee). -/
def pyGet (j : Json) (k : String) (d : Json) : Except PyExc Json :=
  match j with
  | .obj fields =>
      match lookupField k fields with
      | some v => .ok v
      | none => .ok d
  | _ => .error .attributeError

/-- Digit-string value, `none` when empty or containing a non-digit.
(Python `int` also accepts underscores between digits; none of the inputs
relevant here use them.) -/
def digitsToNat (cs : List Char) : Option Nat :=
  if cs = [] then none
  else if cs.all Char.isDigit then
    some (cs.foldl (fun a c => a * 10 + (c.toNat - 48)) 0)
  else none

/-- Characters with surrounding whitespace removed, as Python `str.strip()`. -/
def stripChars (cs : List Char) : List Char :=
  ((cs.dropWhile Char.isWhitespace).reverse.dropWhile Char.isWhitespace).reverse

/-- Python `s.strip()`. -/
def pyStrip (s : String) : String :=
  String.mk (stripChars s.toList)

/-- Python `int(s)` on a string: surrounding whitespace is stripped, an
optional sign is allowed, the rest must be digits, otherwise `ValueError`. -/
def pyIntOfString (s : String) : Option Int :=
  match stripChars s.toList with
  | '+' :: rest => (digitsToNat rest).map Int.ofNat
  | '-' :: rest => (digitsToNat rest).map (fun n => -(n : Int))
  | cs => (digitsToNat cs).map Int.ofNat

/-- Python `int(x)` applied to a decoded JSON value: ints pass through, bools
coerce (True = 1), integer-like strings parse (else `ValueError`), and
`None`, lists and dicts raise `TypeError`. -/
def pyInt (j : Json) : Except PyExc Int :=
  match j with
  | .num n => .ok n
  | .bool b => .ok (if b then 1 else 0)
  | .str s =>
      match pyIntOfString s with
      | some n => .ok n
      | none => .error .valueError
  | .null => .error .typeError
  | .arr _ => .error .typeError
  | .obj _ => .error .typeError

/-- Python iteration, as used by `enumerate(items, 1)` in
src/script_generator.py line 135: a list yields its elements, a string its
one-character substrings, a dict its keys; `None`, bools and numbers are not
iterable (`TypeError`). -/
def pyIterate (j : Json) : Except PyExc (List Json) :=
  match j with
  | .arr elems => .ok elems
  | .str s => .ok (s.toList.map (fun c => Json.str c.toString))
  | .obj fields => .ok (fields.map (fun kv => Json.str kv.1))
  | .null => .error .typeError
  | .bool _ => .error .typeError
  | .num _ => .error .typeError

/-- `GeneratedScript` (src/script_generator.py lines 30-43).  The Python
dataclass performs no runtime type checking, so every field that is stored
verbatim from `item.get(...)` holds an arbitrary decoded JSON value; only
`index` (assigned by the loop counter) and `estimated_duration_seconds`
(passed through `int(...)`) have a definite shape. -/
structure GeneratedScript where
  index : Nat
  hook : Json
  hook_type : Json
  body : Json
  cta : Json
  caption : Json
  hashtags : Json
  estimated_duration_seconds : Int
  tone : Json
  why_this_works : Json

/-- Building one `GeneratedScript` from one decoded array element, position
`i` (src/script_generator.py lines 137-150). -/
def parseScriptItem (i : Nat) (item : Json) : Except PyExc GeneratedScript := do
  let hook ← pyGet item "hook" (.str "")
  let hook_type ← pyGet item "hook_type" (.str "")
  let body ← pyGet item "body" (.str "")
  let cta ← pyGet item "cta" (.str "")
  let caption ← pyGet item "caption" (.str "")
  let hashtags ← pyGet item "hashtags" (.arr [])
  let durRaw ← pyGet item "estimated_duration_seconds" (.num 45)
  let dur ← pyInt durRaw
  let tone ← pyGet item "tone" (.str "")
  let why ← pyGet item "why_this_works" (.str "")
  .ok ⟨i, hook, hook_type, body, cta, caption, hashtags, dur, tone, why⟩

/-- The `except (KeyError, ValueError)` clause of src/script_generator.py
line 151: only these two exception classes are caught and turned into a
skip; any other exception propagates out of `generate_scripts`. -/
def isCaughtBySkip (e : PyExc) : Bool :=
  match e with
  | .keyError => true
  | .valueError => true
  | _ => false

/-- The parse loop of src/script_generator.py lines 134-153:
`for i, item in enumerate(items, 1)` with the per-item try/except.  `k` is
the 1-based loop counter for the head of the remaining list.  Note that a
skipped item still advances the counter. -/
def buildScripts (k : Nat) : List Json → Except PyExc (List GeneratedScript)
  | [] => .ok []
  | item :: rest =>
      match parseScriptItem k item with
      | .ok s =>
          match buildScripts (k + 1) rest with
          | .ok tail => .ok (s :: tail)
          | .error e => .error e
      | .error e =>
          if isCaughtBySkip e then buildScripts (k + 1) rest
          else .error e

/-- Outcome of the language-model call plus `json.loads` in
src/script_generator.py lines 118-126, abstracting the HTTP client:
the API call can raise `anthropic.APIError`, the returned text can fail
`json.loads`, or it decodes to some JSON value. -/
inductive LMOutcome where
  | apiError : LMOutcome
  | decodeError : LMOutcome
  | value (j : Json) : LMOutcome

/-- `generate_scripts` (src/script_generator.py lines 96-155), from the point
where the language-model response is known.  `anthropic.APIError` and
`json.JSONDecodeError` are caught and produce an empty list (lines 127-132);
any exception escaping the parse loop propagates (`Except.error`). -/
def generate_scripts (resp : LMOutcome) : Except PyExc (List GeneratedScript) :=
  match resp with
  | .apiError => .ok []
  | .decodeError => .ok []
  | .value items =>
      match pyIterate items with
      | .ok xs => buildScripts 1 xs
      | .error e => .error e

/-- The scripts actually retained by the parse loop when no uncaught
exception occurs: the successfully parsed items, each carrying its original
1-based position. -/
def collectParsed (k : Nat) : List Json → List GeneratedScript
  | [] => []
  | item :: rest =>
      match parseScriptItem k item with
      | .ok s => s :: collectParsed (k + 1) rest
      | .error _ => collectParsed (k + 1) rest

/-! ### Lemmas about the generation parse loop -/

lemma pyGet_obj (fields : List (String × Json)) (k : String) (d : Json) :
    pyGet (.obj fields) k d = .ok ((lookupField k fields).getD d) := by
  cases h : lookupField k fields <;> simp [pyGet, h]

/-- A successfully parsed script carries exactly the loop counter it was
parsed at. -/
lemma parseScriptItem_ok_index {i : Nat} {item : Json} {s : GeneratedScript}
    (h : parseScriptItem i item = Except.ok s) : s.index = i := by
  cases item with
  | obj fields =>
      simp only [parseScriptItem, pyGet_obj, bind, Except.bind] at h
      split at h
      all_goals try exact Except.noConfusion h
      injection h with h2
      subst h2
      rfl
  | null => simp [parseScriptItem, pyGet, bind, Except.bind] at h
  | bool b => simp [parseScriptItem, pyGet, bind, Except.bind] at h
  | num n => simp [parseScriptItem, pyGet, bind, Except.bind] at h
  | str s => simp [parseScriptItem, pyGet, bind, Except.bind] at h
  | arr xs => simp [parseScriptItem, pyGet, bind, Except.bind] at h

/-- Every script returned by the parse loop comes from some position `j` of
the input array, and its `index` is the loop counter at that position
(`k + j`), regardless of how many earlier items were skipped. -/
lemma buildScripts_mem_spec : ∀ (xs : List Json) (k : Nat) (ss : List GeneratedScript),
    buildScripts k xs = .ok ss →
    ∀ s ∈ ss, ∃ j, ∃ hj : j < xs.length,
      s.index = k + j ∧ parseScriptItem (k + j) (xs.get ⟨j, hj⟩) = .ok s := by
  intro xs
  induction xs with
  | nil =>
      intro k ss h s hs
      simp only [buildScripts] at h
      injection h with h2
      subst h2
      simp at hs
  | cons item rest ih =>
      intro k ss h s hs
      simp only [buildScripts] at h
      split at h
      case _ s0 hp =>
        split at h
        case _ tail ht =>
          injection h with h2
          subst h2
          rcases List.mem_cons.mp hs with hs | hs
          · subst hs
            refine ⟨0, by simp, ?_, ?_⟩
            · simpa using parseScriptItem_ok_index hp
            · simpa using hp
          · obtain ⟨j, hj, hidx, hparse⟩ := ih (k + 1) tail ht s hs
            refine ⟨j + 1, by simpa using Nat.succ_lt_succ hj, by omega, ?_⟩
            have heq : k + (j + 1) = k + 1 + j := by omega
            rw [heq]
            simpa using hparse
        case _ e ht => cases h
      case _ e hp =>
        split at h
        · obtain ⟨j, hj, hidx, hparse⟩ := ih (k + 1) ss h s hs
          refine ⟨j + 1, by simpa using Nat.succ_lt_succ hj, by omega, ?_⟩
          have heq : k + (j + 1) = k + 1 + j := by omega
          rw [heq]
          simpa using hparse
        · cases h

/-- Indices produced by the parse loop are at least the starting counter and
strictly increasing along the output. -/
lemma buildScripts_index_mono : ∀ (xs : List Json) (k : Nat) (ss : List GeneratedScript),
    buildScripts k xs = .ok ss →
    (∀ s ∈ ss, k ≤ s.index) ∧ (ss.map (fun s => s.index)).Chain' (· < ·) := by
  intro xs
  induction xs with
  | nil =>
      intro k ss h
      simp only [buildScripts] at h
      injection h with h2
      subst h2
      simp
  | cons item rest ih =>
      intro k ss h
      simp only [buildScripts] at h
      split at h
      case _ s0 hp =>
        split at h
        case _ tail ht =>
          injection h with h2
          subst h2
          have hidx0 : s0.index = k := parseScriptItem_ok_index hp
          obtain ⟨hle, hchain⟩ := ih (k + 1) tail ht
          constructor
          · intro s hs
            rcases List.mem_cons.mp hs with hs | hs
            · subst hs; omega
            · have := hle s hs; omega
          · cases tail with
            | nil => simp
            | cons t ts =>
                refine List.chain'_cons.mpr ⟨?_, ?_⟩
                · show s0.index < t.index
                  have := hle t (List.mem_cons_self t ts)
                  omega
                · simpa using hchain
        case _ e ht => cases h
      case _ e hp =>
        split at h
        · obtain ⟨hle, hchain⟩ := ih (k + 1) ss h
          exact ⟨fun s hs => by have := hle s hs; omega, hchain⟩
        · cases h

/-- Whether parsing the item at loop counter `k` either succeeds or fails
with one of the two exception classes that the loop catches. -/
def parseOkOrSkippedB (k : Nat) (item : Json) : Bool :=
  match parseScriptItem k item with
  | .ok _ => true
  | .error e => isCaughtBySkip e

/-- When every item parses or fails with a caught exception, the loop
finishes normally and returns exactly the successfully parsed scripts. -/
lemma buildScripts_total : ∀ (xs : List Json) (k : Nat),
    (∀ j (hj : j < xs.length), parseOkOrSkippedB (k + j) (xs.get ⟨j, hj⟩) = true) →
    buildScripts k xs = .ok (collectParsed k xs) := by
  intro xs
  induction xs with
  | nil => intro k _; rfl
  | cons item rest ih =>
      intro k h
      have h0 : parseOkOrSkippedB k item = true := by simpa using h 0 (by simp)
      have hrest : ∀ j (hj : j < rest.length),
          parseOkOrSkippedB (k + 1 + j) (rest.get ⟨j, hj⟩) = true := by
        intro j hj
        have := h (j + 1) (by simpa using Nat.succ_lt_succ hj)
        have heq : k + (j + 1) = k + 1 + j := by omega
        rw [heq] at this
        simpa using this
      cases hp : parseScriptItem k item with
      | ok s0 =>
          simp only [buildScripts, collectParsed, hp]
          rw [ih (k + 1) hrest]
      | error e =>
          have hc : isCaughtBySkip e = true := by
            simpa [parseOkOrSkippedB, hp] using h0
          simp only [buildScripts, collectParsed, hp, hc, if_true]
          exact ih (k + 1) hrest

/-! ### Claims C1, C2, C8 — the Generation stage -/

/-- Claim C1 is false on the code: with a response array whose first object
is malformed (its duration string raises `ValueError`, so it is skipped) and
whose second object parses, `generate_scripts` returns a single script whose
`index` is 2, its position in the original array — not the dense re-numbered
index 1 that the claim requires. -/
theorem c1_counterexample :
    (generate_scripts (.value (.arr [.obj [("estimated_duration_seconds", .str "soon")],
        .obj []]))).toOption.map (fun ss => ss.map (fun s => s.index)) = some [2]
    ∧ ([2] : List Nat) ≠ [1] := ⟨rfl, by decide⟩

/-- Claim C1 (amended): whenever `generate_scripts` returns a batch, every
returned script's `index` is its 1-based position in the original response
array (the position at which it parsed), so indices are strictly increasing
but gaps left by skipped items ARE preserved — they are not re-numbered. -/
theorem c1_indices_positional (xs : List Json) (ss : List GeneratedScript)
    (h : generate_scripts (.value (.arr xs)) = .ok ss) :
    (∀ s ∈ ss, ∃ j, ∃ hj : j < xs.length,
        s.index = j + 1 ∧ parseScriptItem (j + 1) (xs.get ⟨j, hj⟩) = .ok s)
    ∧ (ss.map (fun s => s.index)).Chain' (· < ·) := by
  have hb : buildScripts 1 xs = .ok ss := by
    simpa [generate_scripts, pyIterate] using h
  constructor
  · intro s hs
    obtain ⟨j, hj, hidx, hparse⟩ := buildScripts_mem_spec xs 1 ss hb s hs
    refine ⟨j, hj, by omega, ?_⟩
    rwa [Nat.add_comm 1 j] at hparse
  · exact (buildScripts_index_mono xs 1 ss hb).2

/-- A concrete response array whose first object is skipped. -/
def c1Items : List Json :=
  [.obj [("estimated_duration_seconds", .str "soon")], .obj []]

/-- Witness for the amended claim C1 at a concrete input. -/
theorem c1_indices_positional_witness :
    (∀ s ∈ collectParsed 1 c1Items, ∃ j, ∃ hj : j < c1Items.length,
        s.index = j + 1 ∧ parseScriptItem (j + 1) (c1Items.get ⟨j, hj⟩) = .ok s)
    ∧ ((collectParsed 1 c1Items).map (fun s => s.index)).Chain' (· < ·) :=
  c1_indices_positional c1Items (collectParsed 1 c1Items) rfl

/-- Claim C2 is false on the code: a well-formed JSON array holding one
well-formed object and one malformed object whose
`estimated_duration_seconds` is `null` makes `int(None)` raise `TypeError`,
which the `except (KeyError, ValueError)` clause does not catch — the whole
call raises instead of skipping the object. -/
theorem c2_counterexample :
    generate_scripts (.value (.arr [.obj [], .obj [("estimated_duration_seconds", .null)]]))
      = .error .typeError := rfl

/-- Claim C2 (amended): a malformed object is skipped (and the rest of the
batch still returned) exactly when its parse failure raises `KeyError` or
`ValueError` — in this code, a duration string that does not parse as an
integer; when every object parses or fails that way, the function returns
the surviving scripts and never raises.  Malformed objects whose failure is
any other exception (non-dict array items, `null`/array/object durations)
propagate and fail the whole call. -/
theorem c2_skip_only_caught (xs : List Json)
    (h : ∀ j (hj : j < xs.length), parseOkOrSkippedB (j + 1) (xs.get ⟨j, hj⟩) = true) :
    generate_scripts (.value (.arr xs)) = .ok (collectParsed 1 xs) := by
  have hall := buildScripts_total xs 1 (by
    intro j hj
    have := h j hj
    rwa [Nat.add_comm 1 j])
  simpa [generate_scripts, pyIterate] using hall

/-- A concrete mixed batch: two parseable objects around one object whose
duration string raises `ValueError` and is skipped. -/
def c2Items : List Json :=
  [.obj [("hook", .str "h1")], .obj [("estimated_duration_seconds", .str "oops")], .obj []]

/-- Witness for the amended claim C2 at a concrete input. -/
theorem c2_skip_only_caught_witness :
    generate_scripts (.value (.arr c2Items)) = .ok (collectParsed 1 c2Items) :=
  c2_skip_only_caught c2Items (by decide)

/-- Claim C8 is false on the code: the response `5` is valid JSON and not an
array, yet `generate_scripts` does not return an empty sequence — iterating
an int in `enumerate` raises an uncaught `TypeError`. -/
theorem c8_counterexample :
    generate_scripts (.value (.num 5)) = .error .typeError
    ∧ (Except.error PyExc.typeError : Except PyExc (List GeneratedScript)) ≠ .ok [] := by
  refine ⟨rfl, ?_⟩
  intro h
  exact Except.noConfusion h

/-- Claim C8 (amended): only a response that fails `json.loads` (or an API
error) makes the stage return the empty sequence; a response that is valid
JSON but not an array is not handled that way — `null`, booleans and numbers
raise `TypeError` at `enumerate`, and nonempty objects or strings raise
`AttributeError` on their first iterated element; only the degenerate empty
object and empty string fall through to an empty batch. -/
theorem c8_non_array_behaviour :
    generate_scripts .decodeError = .ok []
    ∧ generate_scripts .apiError = .ok []
    ∧ generate_scripts (.value .null) = .error .typeError
    ∧ (∀ b, generate_scripts (.value (.bool b)) = .error .typeError)
    ∧ (∀ n : Int, generate_scripts (.value (.num n)) = .error .typeError)
    ∧ generate_scripts (.value (.obj [])) = .ok []
    ∧ generate_scripts (.value (.str "")) = .ok []
    ∧ (∀ k v fields, generate_scripts (.value (.obj ((k, v) :: fields))) = .error .attributeError) := by
  refine ⟨rfl, rfl, rfl, fun b => rfl, fun n => rfl, rfl, rfl, fun k v fields => ?_⟩
  simp [generate_scripts, pyIterate, buildScripts, parseScriptItem, pyGet, bind, Except.bind,
    isCaughtBySkip]

/-! ### The Collector (src/scraper.py)

The instaloader library is abstracted: a target's post stream is the list of
posts its iterator yields before it ends or a rate-limit exception truncates
it (the code catches `TooManyRequestsException` and keeps the partial batch,
so a truncated stream is simply a shorter list); a not-found exception is the
`none` case.  Everything downstream of the stream is translated from the
source. -/

/-- Whether the second character list is an initial segment of the first,
as Python `str.startswith`. -/
def startsWithChars : List Char → List Char → Bool
  | _, [] => true
  | [], _ :: _ => false
  | c :: cs, p :: ps => c = p && startsWithChars cs ps

/-- Python `s.startswith(pre)`. -/
def pyStartsWith (s pre : String) : Bool :=
  startsWithChars s.toList pre.toList

/-- `ReelData` (src/scraper.py lines 62-77). -/
structure ReelData where
  shortcode : String
  url : String
  video_url : Option String
  caption : String
  views : Nat
  likes : Nat
  comments : Nat
  owner_username : String
  timestamp : String
  hashtags : List String
  transcript : Option String
  analysis : Option Json

/-- The fields of an instaloader `Post` that `_post_to_reel` reads.
`caption` and `video_view_count` can be `None` in the library. -/
structure Post where
  shortcode : String
  is_video : Bool
  video_url : Option String
  caption : Option String
  video_view_count : Option Nat
  likes : Nat
  comments : Nat
  owner_username : String
  date_utc : String
  caption_hashtags : List String

/-- `_post_to_reel` (src/scraper.py lines 80-96): non-videos map to `None`;
`post.caption or ""` and `post.video_view_count or 0` coincide with
`getD` on these types. -/
def post_to_reel (p : Post) : Option ReelData :=
  if p.is_video then
    some {
      shortcode := p.shortcode
      url := "https://www.instagram.com/reel/" ++ p.shortcode ++ "/"
      video_url := p.video_url
      caption := p.caption.getD ""
      views := p.video_view_count.getD 0
      likes := p.likes
      comments := p.comments
      owner_username := p.owner_username
      timestamp := p.date_utc
      hashtags := p.caption_hashtags
      transcript := none
      analysis := none }
  else none

/-- The over-fetch loop shared by `scrape_by_hashtag` (src/scraper.py lines
118-136) and `scrape_by_profile` (lines 169-186): every yielded post counts
against `limit` whether or not it qualifies; qualifying reels (videos with
`views >= min_views`) are collected in stream order. -/
def scrapeLoop (minViews limit : Nat) : List Post → Nat → List ReelData
  | [], _ => []
  | p :: ps, fetched =>
      if limit ≤ fetched then []
      else
        match post_to_reel p with
        | some r =>
            if minViews ≤ r.views then r :: scrapeLoop minViews limit ps (fetched + 1)
            else scrapeLoop minViews limit ps (fetched + 1)
        | none => scrapeLoop minViews limit ps (fetched + 1)

/-- Insertion step of a stable sort by `views` descending: a later-arriving
element is placed after every element with at least its view count. -/
def insertByViews (x : ReelData) : List ReelData → List ReelData
  | [] => [x]
  | y :: ys => if x.views < y.views then y :: insertByViews x ys else x :: y :: ys

/-- Python `reels.sort(key=lambda r: r.views, reverse=True)`: a stable
descending sort by `views`.  Python's sort is stable, and a stable sort
under a fixed order is unique, so this insertion formulation produces the
same list. -/
def sortByViewsDesc : List ReelData → List ReelData
  | [] => []
  | x :: xs => insertByViews x (sortByViewsDesc xs)

/-- `scrape_by_hashtag` (src/scraper.py lines 99-141): `none` is the
hashtag-not-found exception path (empty result); otherwise the loop runs
with `limit = max_results * 5`, the survivors are sorted by views descending
and truncated to `max_results`. -/
def scrape_by_hashtag (posts : Option (List Post)) (max_results minViews : Nat) :
    List ReelData :=
  match posts with
  | none => []
  | some ps => (sortByViewsDesc (scrapeLoop minViews (max_results * 5) ps 0)).take max_results

/-- `scrape_by_profile` (src/scraper.py lines 144-191): identical post-stream
processing; the username normalisation only selects which stream the
collaborator supplies, which is abstracted into `posts`. -/
def scrape_by_profile (posts : Option (List Post)) (max_results minViews : Nat) :
    List ReelData :=
  match posts with
  | none => []
  | some ps => (sortByViewsDesc (scrapeLoop minViews (max_results * 5) ps 0)).take max_results

/-- The per-batch dedup fold of `scrape_targets` (src/scraper.py lines
220-223): returns the grown seen-set and the batch elements whose shortcode
was not yet seen, in order. -/
def dedupSeen (seen : List String) : List ReelData → List String × List ReelData
  | [] => (seen, [])
  | r :: rs =>
      if r.shortcode ∈ seen then dedupSeen seen rs
      else
        ((dedupSeen (r.shortcode :: seen) rs).1,
          r :: (dedupSeen (r.shortcode :: seen) rs).2)

/-- The target loop of `scrape_targets` (src/scraper.py lines 206-225).
`pb`/`hb` give the batch produced for a profile/hashtag target, with `none`
for the exception path (caught, logged, target skipped).  Targets are
stripped; empty targets are skipped; a leading `http` or `@` selects the
profile branch. -/
def scrapeTargetsLoop (pb hb : String → Option (List ReelData)) :
    List String → List String → List ReelData → List ReelData
  | [], _, acc => acc
  | t :: ts, seen, acc =>
      if pyStrip t = "" then scrapeTargetsLoop pb hb ts seen acc
      else
        match (if pyStartsWith (pyStrip t) "http" || pyStartsWith (pyStrip t) "@" then
            pb (pyStrip t) else hb (pyStrip t)) with
        | none => scrapeTargetsLoop pb hb ts seen acc
        | some batch =>
            scrapeTargetsLoop pb hb ts (dedupSeen seen batch).1 (acc ++ (dedupSeen seen batch).2)

/-- `scrape_targets` (src/scraper.py lines 194-228): the merged, deduplicated
list, finally sorted by views descending. -/
def scrape_targets (targets : List String) (pb hb : String → Option (List ReelData)) :
    List ReelData :=
  sortByViewsDesc (scrapeTargetsLoop pb hb targets [] [])

/-- The concatenation, in processing order, of every batch `scrape_targets`
receives — the stream against which "first seen" is defined. -/
def targetStream (pb hb : String → Option (List ReelData)) : List String → List ReelData
  | [] => []
  | t :: ts =>
      if pyStrip t = "" then targetStream pb hb ts
      else
        match (if pyStartsWith (pyStrip t) "http" || pyStartsWith (pyStrip t) "@" then
            pb (pyStrip t) else hb (pyStrip t)) with
        | none => targetStream pb hb ts
        | some batch => batch ++ targetStream pb hb ts

/-! ### Lemmas about the stable sort and the dedup fold -/

lemma insertByViews_perm (x : ReelData) (l : List ReelData) :
    List.Perm (insertByViews x l) (x :: l) := by
  induction l with
  | nil => simp [insertByViews]
  | cons y ys ih =>
      simp only [insertByViews]
      split
      · exact (ih.cons y).trans (List.Perm.swap x y ys)
      · exact List.Perm.refl _

lemma sortByViewsDesc_perm (l : List ReelData) : List.Perm (sortByViewsDesc l) l := by
  induction l with
  | nil => rfl
  | cons x xs ih => exact (insertByViews_perm x (sortByViewsDesc xs)).trans (ih.cons x)

lemma insertByViews_sorted (x : ReelData) (l : List ReelData)
    (h : l.Pairwise (fun a b => b.views ≤ a.views)) :
    (insertByViews x l).Pairwise (fun a b => b.views ≤ a.views) := by
  induction l with
  | nil => simp [insertByViews]
  | cons y ys ih =>
      rcases List.pairwise_cons.mp h with ⟨hy, hys⟩
      simp only [insertByViews]
      split
      case isTrue hgt =>
        refine List.pairwise_cons.mpr ⟨?_, ih hys⟩
        intro z hz
        rcases List.mem_cons.mp ((insertByViews_perm x ys).subset hz) with rfl | hz2
        · omega
        · exact hy z hz2
      case isFalse hle =>
        refine List.pairwise_cons.mpr ⟨?_, h⟩
        intro z hz
        rcases List.mem_cons.mp hz with rfl | hz2
        · omega
        · have h1 := hy z hz2
          have h2 := Nat.le_of_not_lt hle
          omega

lemma sortByViewsDesc_sorted (l : List ReelData) :
    (sortByViewsDesc l).Pairwise (fun a b => b.views ≤ a.views) := by
  induction l with
  | nil => simp [sortByViewsDesc]
  | cons x xs ih => exact insertByViews_sorted x _ ih

lemma insertByViews_filter_eq (x : ReelData) (l : List ReelData) (v : Nat) (hx : x.views = v) :
    (insertByViews x l).filter (fun r => r.views == v)
      = x :: l.filter (fun r => r.views == v) := by
  induction l with
  | nil => simp [insertByViews, List.filter_cons, hx]
  | cons y ys ih =>
      simp only [insertByViews]
      split
      case isTrue hgt =>
        have hy : (y.views == v) = false := by
          simp only [beq_eq_false_iff_ne, ne_eq]
          omega
        simp only [List.filter_cons, hy, if_false, ih]
        simp [List.filter_cons, hy]
      case isFalse hle =>
        simp [List.filter_cons, hx]

lemma insertByViews_filter_ne (x : ReelData) (l : List ReelData) (v : Nat) (hx : x.views ≠ v) :
    (insertByViews x l).filter (fun r => r.views == v)
      = l.filter (fun r => r.views == v) := by
  induction l with
  | nil =>
      have hx2 : (x.views == v) = false := by
        simp only [beq_eq_false_iff_ne, ne_eq]
        exact hx
      simp [insertByViews, List.filter_cons, hx2]
  | cons y ys ih =>
      simp only [insertByViews]
      split
      case isTrue hgt => simp only [List.filter_cons, ih]
      case isFalse hle =>
        have hx2 : (x.views == v) = false := by
          simp only [beq_eq_false_iff_ne, ne_eq]
          exact hx
        simp [List.filter_cons, hx2]

/-- Stability of the final sort: the subsequence of any fixed view count is
unchanged. -/
lemma sortByViewsDesc_stable (l : List ReelData) (v : Nat) :
    (sortByViewsDesc l).filter (fun r => r.views == v)
      = l.filter (fun r => r.views == v) := by
  induction l with
  | nil => rfl
  | cons x xs ih =>
      by_cases hx : x.views = v
      · rw [sortByViewsDesc, insertByViews_filter_eq x _ v hx, ih]
        have hx2 : (x.views == v) = true := by simpa using hx
        simp [List.filter_cons, hx2]
      · rw [sortByViewsDesc, insertByViews_filter_ne x _ v hx, ih]
        have hx2 : (x.views == v) = false := by simpa using hx
        simp [List.filter_cons, hx2]

lemma dedupSeen_append (a b : List ReelData) : ∀ seen : List String,
    dedupSeen seen (a ++ b)
      = ((dedupSeen (dedupSeen seen a).1 b).1,
          (dedupSeen seen a).2 ++ (dedupSeen (dedupSeen seen a).1 b).2) := by
  induction a with
  | nil => intro seen; simp [dedupSeen]
  | cons r rs ih =>
      intro seen
      simp only [List.cons_append, dedupSeen]
      split
      · exact ih seen
      · simp [ih (r.shortcode :: seen)]

/-- The target loop is the first-occurrence dedup of the concatenated
batch stream. -/
lemma scrapeTargetsLoop_eq (pb hb : String → Option (List ReelData)) :
    ∀ (ts : List String) (seen : List String) (acc : List ReelData),
    scrapeTargetsLoop pb hb ts seen acc
      = acc ++ (dedupSeen seen (targetStream pb hb ts)).2 := by
  intro ts
  induction ts with
  | nil => intro seen acc; simp [scrapeTargetsLoop, targetStream, dedupSeen]
  | cons t ts ih =>
      intro seen acc
      simp only [scrapeTargetsLoop, targetStream]
      split
      · exact ih seen acc
      · split
        · exact ih seen acc
        · case _ batch _ =>
            rw [ih, dedupSeen_append]
            simp

lemma dedupSeen_nodup : ∀ (l : List ReelData) (seen : List String),
    (((dedupSeen seen l).2).map (fun r => r.shortcode)).Nodup
    ∧ ∀ r ∈ (dedupSeen seen l).2, ¬ r.shortcode ∈ seen := by
  intro l
  induction l with
  | nil => intro seen; simp [dedupSeen]
  | cons y ys ih =>
      intro seen
      simp only [dedupSeen]
      split
      · exact ih seen
      case isFalse hns =>
        obtain ⟨hnd, hfresh⟩ := ih (y.shortcode :: seen)
        refine ⟨?_, ?_⟩
        · simp only [List.map_cons, List.nodup_cons]
          refine ⟨?_, hnd⟩
          intro hmem
          rcases List.mem_map.mp hmem with ⟨r, hr, hsc⟩
          exact hfresh r hr (by rw [hsc]; exact List.mem_cons_self _ _)
        · intro r hr
          rcases List.mem_cons.mp hr with rfl | hr2
          · exact hns
          · intro hin
            exact hfresh r hr2 (List.mem_cons_of_mem _ hin)

/-- Every element retained by the dedup fold is the first element of the
input with its shortcode. -/
lemma dedupSeen_find : ∀ (l : List ReelData) (seen : List String) (r : ReelData),
    r ∈ (dedupSeen seen l).2 →
    ¬ r.shortcode ∈ seen
    ∧ l.find? (fun x => x.shortcode == r.shortcode) = some r := by
  intro l
  induction l with
  | nil => intro seen r hr; simp [dedupSeen] at hr
  | cons y ys ih =>
      intro seen r hr
      simp only [dedupSeen] at hr
      split at hr
      case isTrue hin =>
        obtain ⟨hns, hfind⟩ := ih seen r hr
        refine ⟨hns, ?_⟩
        have hne : (y.shortcode == r.shortcode) = false := by
          simp only [beq_eq_false_iff_ne, ne_eq]
          intro he
          rw [← he] at hns
          exact hns hin
        rw [List.find?_cons_of_neg _ (by simp [hne]), hfind]
      case isFalse hns =>
        rcases List.mem_cons.mp hr with rfl | hr2
        · exact ⟨hns, by rw [List.find?_cons_of_pos _ (by simp)]⟩
        · obtain ⟨hns2, hfind⟩ := ih (y.shortcode :: seen) r hr2
          have hne : ¬ y.shortcode = r.shortcode := by
            intro he
            exact hns2 (by rw [← he]; exact List.mem_cons_self _ _)
          refine ⟨fun hin => hns2 (List.mem_cons_of_mem _ hin), ?_⟩
          rw [List.find?_cons_of_neg _ (by simp [hne]), hfind]

/-! ### Claims C9, C4, C5 — the Collector -/

/-- Claim C9: for a single target with `max_per_target = k`, both
`scrape_by_hashtag` and `scrape_by_profile` return at most `k` items,
whatever the post stream and however many candidates pass the
`views >= min_engagement` filter inside the over-fetched window. -/
theorem c9_per_target_cap (posts : Option (List Post)) (k minViews : Nat) :
    (scrape_by_hashtag posts k minViews).length ≤ k
    ∧ (scrape_by_profile posts k minViews).length ≤ k := by
  constructor <;>
    (cases posts with
      | none => simp [scrape_by_hashtag, scrape_by_profile]
      | some ps =>
          simp only [scrape_by_hashtag, scrape_by_profile]
          exact List.length_take_le _ _)

/-- Claim C4: for every target list and every assignment of per-target
batches, the merged output of `scrape_targets` has pairwise-distinct
shortcodes, and every retained item is the first item bearing its shortcode
in the concatenated stream of batches — so when two targets supply the
same id, the earlier-processed target's item wins. -/
theorem c4_dedup_first_seen (targets : List String) (pb hb : String → Option (List ReelData)) :
    ((scrape_targets targets pb hb).map (fun r => r.shortcode)).Nodup
    ∧ ∀ r ∈ scrape_targets targets pb hb,
        (targetStream pb hb targets).find? (fun x => x.shortcode == r.shortcode) = some r := by
  have hmerge : scrapeTargetsLoop pb hb targets [] []
      = (dedupSeen [] (targetStream pb hb targets)).2 := by
    simpa using scrapeTargetsLoop_eq pb hb targets [] []
  have hperm : List.Perm (scrape_targets targets pb hb)
      ((dedupSeen [] (targetStream pb hb targets)).2) := by
    rw [scrape_targets, hmerge]
    exact sortByViewsDesc_perm _
  constructor
  · exact ((hperm.map (fun r => r.shortcode)).nodup_iff).mpr
      (dedupSeen_nodup (targetStream pb hb targets) []).1
  · intro r hr
    exact (dedupSeen_find (targetStream pb hb targets) [] r (hperm.subset hr)).2

/-- A minimal reel for concrete instances. -/
def mkReel (sc : String) (v : Nat) : ReelData :=
  ⟨sc, "", none, "", v, 0, 0, "", "", [], none, none⟩

def wR1 : ReelData := mkReel "s1" 5

def wR2 : ReelData := mkReel "s2" 9

def wR1b : ReelData := mkReel "s1" 7

def wR3 : ReelData := mkReel "s3" 1

/-- Hashtag collaborator for the C4 witness run. -/
def wHB : String → Option (List ReelData) :=
  fun t => if t = "fit" then some [wR1, wR2] else none

/-- Profile collaborator for the C4 witness run: its batch repeats
shortcode "s1" with different views. -/
def wPB : String → Option (List ReelData) :=
  fun t => if t = "@joe" then some [wR1b, wR3] else none

def wTargets : List String := ["fit", "@joe"]

/-- Witness for claim C4 on a concrete two-target run in which both targets
supply shortcode "s1": the first target's item (views 5) is the one found. -/
theorem c4_dedup_first_seen_witness :
    ((scrape_targets wTargets wPB wHB).map (fun r => r.shortcode)).Nodup
    ∧ (targetStream wPB wHB wTargets).find? (fun x => x.shortcode == wR1.shortcode) = some wR1 :=
  ⟨(c4_dedup_first_seen wTargets wPB wHB).1,
   (c4_dedup_first_seen wTargets wPB wHB).2 wR1
     (show wR1 ∈ scrape_targets wTargets wPB wHB from
        List.mem_cons_of_mem _ (List.mem_cons_self _ _))⟩

/-- Claim C5: the final output of `scrape_targets` is sorted by `views`
descending, and for every view count the subsequence with that count equals
the corresponding subsequence of the pre-sort merged list — equal-view items
keep their relative order (the sort is stable). -/
theorem c5_ranking_stable (targets : List String) (pb hb : String → Option (List ReelData)) :
    (scrape_targets targets pb hb).Pairwise (fun a b => b.views ≤ a.views)
    ∧ ∀ v : Nat, (scrape_targets targets pb hb).filter (fun r => r.views == v)
        = (scrapeTargetsLoop pb hb targets [] []).filter (fun r => r.views == v) := by
  constructor
  · exact sortByViewsDesc_sorted _
  · intro v
    exact sortByViewsDesc_stable _ v

/-! ### Claim C6 — the Orchestrator gate between Transcription and Analysis
(src/main.py lines 156-173) -/

/-- Python truthiness of an optional transcript: `None` and the empty string
are falsy (main.py line 158 counts `r.transcript` truthily). -/
def pyTruthyStr (o : Option String) : Bool :=
  match o with
  | none => false
  | some s => !(s == "")

/-- `sum(1 for r in reels if r.transcript)` (src/main.py line 158). -/
def transcribedCount (reels : List ReelData) : Nat :=
  (reels.filter (fun r => pyTruthyStr r.transcript)).length

/-- Observable outcome of the stage-3-to-stage-4 boundary: `typer.Exit` with
a code, or continuation into Stage 5 with a strategy. -/
inductive StageOutcome where
  | exited (code : Nat) : StageOutcome
  | proceeded (strategy : Json) : StageOutcome

/-- A trace of the boundary: whether `analyse_batch` was invoked, and how the
run left the boundary. -/
structure AnalysisTrace where
  analysisInvoked : Bool
  outcome : StageOutcome

/-- src/main.py lines 158-173: if the transcribed count is zero the run exits
with code 1 before Stage 4; otherwise `analyse_batch` (the `analyse` oracle)
is invoked, and a `None` strategy also exits with code 1. -/
def runAfterTranscription (reels : List ReelData) (analyse : List ReelData → Option Json) :
    AnalysisTrace :=
  if transcribedCount reels = 0 then ⟨false, .exited 1⟩
  else
    match analyse reels with
    | none => ⟨true, .exited 1⟩
    | some strategy => ⟨true, .proceeded strategy⟩

/-- Claim C6: when every item's transcript is absent after the transcription
stage, the orchestrator exits with failure code 1 and the Analysis stage is
never invoked — no language-model analysis call occurs. -/
theorem c6_abort_before_analysis (reels : List ReelData)
    (analyse : List ReelData → Option Json)
    (h : ∀ r ∈ reels, r.transcript = none) :
    runAfterTranscription reels analyse = ⟨false, .exited 1⟩ := by
  have hz : transcribedCount reels = 0 := by
    simp only [transcribedCount, List.length_eq_zero, List.filter_eq_nil_iff]
    intro r hr
    simp [pyTruthyStr, h r hr]
  simp [runAfterTranscription, hz]

def c6Reels : List ReelData := [mkReel "a" 3, mkReel "b" 7]

/-- Witness for claim C6 on a concrete transcript-free batch. -/
theorem c6_abort_before_analysis_witness :
    runAfterTranscription c6Reels (fun _ => none) = ⟨false, .exited 1⟩ :=
  c6_abort_before_analysis c6Reels (fun _ => none)
    (by
      intro r hr
      rcases List.mem_cons.mp hr with rfl | hr
      · rfl
      · rcases List.mem_cons.mp hr with rfl | hr
        · rfl
        · simp at hr)

/-! ### Claim C7 — the audio download cache (src/downloader.py)

The filesystem is the list of existing file paths; yt-dlp is a boolean
oracle on the requested URL ("no change to external state" makes it a fixed
function); a successful download creates the destination file (the mp3
post-processor writes it), a failed one does not.  The md5 hex digest is an
arbitrary fixed function; only its determinism matters. -/

/-- `_cache_path` (src/downloader.py lines 25-29): the first 12 hex digits of
the md5 of the shortcode under the audio cache directory. -/
def cache_path (md5hex : String → String) (reel : ReelData) : String :=
  "audio_cache/" ++ String.mk ((md5hex reel.shortcode).toList.take 12) ++ ".mp3"

/-- Result of one `download_audio` call: the returned path, the filesystem
afterwards, and how many times the download collaborator was invoked. -/
structure DownloadResult where
  path : Option String
  fs : List String
  calls : Nat

/-- `reel.video_url or reel.url` (src/downloader.py line 45): `None` or empty
falls back to the post URL. -/
def pyOrUrl (reel : ReelData) : String :=
  match reel.video_url with
  | some u => if u = "" then reel.url else u
  | none => reel.url

/-- `download_audio` (src/downloader.py lines 32-69): cache hit when the
destination exists and `force` is false; otherwise one collaborator
invocation, returning the path on success and `None` on `DownloadError`. -/
def download_audio (md5hex : String → String) (fs : List String) (reel : ReelData)
    (force : Bool) (dl : String → Bool) : DownloadResult :=
  if cache_path md5hex reel ∈ fs ∧ force = false then
    ⟨some (cache_path md5hex reel), fs, 0⟩
  else
    if dl (pyOrUrl reel) then
      ⟨some (cache_path md5hex reel), cache_path md5hex reel :: fs, 1⟩
    else
      ⟨none, fs, 1⟩

/-- Claim C7 is false on the code as universally stated: for a reel whose
download deterministically fails (e.g. geo-blocked), two `force=false` calls
with no external state change invoke the download collaborator twice, not at
most once — the failed first call caches nothing. -/
theorem c7_counterexample :
    (download_audio (fun s => s) [] (mkReel "abc" 0) false (fun _ => false)).calls
      + (download_audio (fun s => s)
          (download_audio (fun s => s) [] (mkReel "abc" 0) false (fun _ => false)).fs
          (mkReel "abc" 0) false (fun _ => false)).calls = 2
    ∧ ¬ ((download_audio (fun s => s) [] (mkReel "abc" 0) false (fun _ => false)).calls
      + (download_audio (fun s => s)
          (download_audio (fun s => s) [] (mkReel "abc" 0) false (fun _ => false)).fs
          (mkReel "abc" 0) false (fun _ => false)).calls ≤ 1) := by decide

/-- Claim C7 (amended): two `force=false` calls with unchanged external state
always return the same path; when the first call returns a path (cache hit
or successful download) the collaborator is invoked at most once across both
calls, the second being a cache hit on the file the first found or created;
when the first call fails, both calls invoke the collaborator (twice in
total). -/
theorem c7_cache_idempotent (md5hex : String → String) (fs : List String) (reel : ReelData)
    (dl : String → Bool) :
    (download_audio md5hex fs reel false dl).path
        = (download_audio md5hex (download_audio md5hex fs reel false dl).fs reel false dl).path
    ∧ ((download_audio md5hex fs reel false dl).calls
          + (download_audio md5hex (download_audio md5hex fs reel false dl).fs reel false dl).calls
          ≤ 1
        ∨ ((download_audio md5hex fs reel false dl).path = none
            ∧ (download_audio md5hex fs reel false dl).calls
              + (download_audio md5hex (download_audio md5hex fs reel false dl).fs
                  reel false dl).calls = 2)) := by
  by_cases hmem : cache_path md5hex reel ∈ fs
  · simp [download_audio, hmem]
  · by_cases hdl : dl (pyOrUrl reel)
    · simp [download_audio, hmem, hdl, List.mem_cons_self]
    · simp [download_audio, hmem, hdl]

/-! ### Claim C10 — the transcript sidecar cache (src/transcriber.py)

The filesystem maps paths to file contents; the Whisper model is an oracle
returning the raw transcription text or failing (any exception, including
the `AttributeError` from the undefined `config.WHISPER_MODEL_SIZE`, is
caught by the blanket `except Exception` and yields `None`). -/

/-- Association-list file lookup: the content stored at a path, if any. -/
def lookupStr (k : String) : List (String × String) → Option String
  | [] => none
  | kv :: rest => if kv.1 = k then some kv.2 else lookupStr k rest

/-- Python `pathlib.Path.with_suffix`: replace the extension of the final
path component (the part from its last dot, when that dot is not the leading
character) with `ext`, appending `ext` when there is no extension. -/
def with_suffix (p : String) (ext : String) : String :=
  let r := p.toList.reverse
  let rb := r.takeWhile (fun c => !(c = '/'))
  let rd := r.dropWhile (fun c => !(c = '/'))
  let rafter := rb.dropWhile (fun c => !(c = '.'))
  let rstem :=
    match rafter with
    | [] => rb
    | _ :: tl => if tl = [] then rb else tl
  String.mk ((rstem ++ rd).reverse ++ ext.toList)

/-- Result of one `transcribe_file` call: the returned transcript, whether
the Whisper model was invoked, and the filesystem afterwards. -/
structure TranscribeResult where
  transcript : Option String
  whisperInvoked : Bool
  fs : List (String × String)

/-- `transcribe_file` (src/transcriber.py lines 46-74): the sidecar `.txt`
cache is checked first and returned verbatim on a hit; only then is the
audio file's existence checked; otherwise the model runs, the stripped text
is cached and returned, and any transcription exception yields `None`. -/
def transcribe_file (fs : List (String × String)) (audio_path : String) (force : Bool)
    (whisper : String → Option String) : TranscribeResult :=
  if (lookupStr (with_suffix audio_path ".txt") fs).isSome ∧ force = false then
    ⟨lookupStr (with_suffix audio_path ".txt") fs, false, fs⟩
  else if lookupStr audio_path fs = none then
    ⟨none, false, fs⟩
  else
    match whisper audio_path with
    | some text =>
        ⟨some (pyStrip text), true, (with_suffix audio_path ".txt", pyStrip text) :: fs⟩
    | none => ⟨none, true, fs⟩

/-- Claim C10: when the transcript sidecar exists, `transcribe_file` with
`force=false` returns the cached text without invoking the model, even when
the audio file itself is absent — the cache check precedes the audio
existence check. -/
theorem c10_cache_hit_without_audio (fs : List (String × String)) (audio_path t : String)
    (whisper : String → Option String)
    (hc : lookupStr (with_suffix audio_path ".txt") fs = some t)
    (ha : lookupStr audio_path fs = none) :
    transcribe_file fs audio_path false whisper = ⟨some t, false, fs⟩ := by
  simp [transcribe_file, hc]

/-- A filesystem holding only the transcript sidecar, not the audio file. -/
def c10FS : List (String × String) := [("audio_cache/ab12.txt", "hello world")]

/-- Witness for claim C10 at a concrete filesystem. -/
theorem c10_cache_hit_without_audio_witness :
    transcribe_file c10FS "audio_cache/ab12.mp3" false (fun _ => none)
      = ⟨some "hello world", false, c10FS⟩ :=
  c10_cache_hit_without_audio c10FS "audio_cache/ab12.mp3" "hello world" (fun _ => none) rfl rfl

/-! ### Claim C3 — startup configuration checks (src/config.py,
src/script_generator.py)

src/config.py calls `_require` for exactly one key, `GROQ_API_KEY`, while the
module is being imported (line 46); every other attribute is optional or
defaulted.
src/script_generator.py reads `config.ANTHROPIC_API_KEY` (line 26) and
`config.CLAUDE_MODEL` (line 121), names src/config.py never defines, so the
generation stage's key is neither definable nor checked at startup and the
attribute read fails only when Stage 5 runs. -/

/-- The keys `_require`d at config import time (src/config.py line 46). -/
def config_startup_required : List String := ["GROQ_API_KEY"]

/-- Every module-level attribute src/config.py defines (lines 46-69). -/
def config_module_attrs : List String :=
  ["GROQ_API_KEY", "IG_USERNAME", "IG_PASSWORD", "GOOGLE_SERVICE_ACCOUNT_FILE",
   "GOOGLE_SHEET_ID", "SCRAPE_TARGETS", "MIN_VIEWS", "MAX_REELS_PER_TARGET",
   "SCRIPTS_TO_GENERATE", "GROQ_MODEL", "AUDIO_CACHE_DIR", "OUTPUT_DIR"]

/-- The config attributes src/script_generator.py reads for its
language-model client (lines 26 and 121). -/
def script_generator_config_reads : List String := ["ANTHROPIC_API_KEY", "CLAUDE_MODEL"]

/-- `_require` over the startup-required keys (src/config.py lines 35-46):
startup succeeds iff each required key is set to a truthy string. -/
def startup_ok (env : String → Option String) : Bool :=
  config_startup_required.all (fun k => pyTruthyStr (env k))

/-- An environment supplying only the Groq key — in particular, no key for
the script-generation client. -/
def envGroqOnly : String → Option String :=
  fun k => if k = "GROQ_API_KEY" then some "gsk_demo" else none

/-- Claim C3 names a real defect: startup succeeds in an environment that
carries no key for the script-generation language-model client, because that
client's config attribute is read by src/script_generator.py yet is neither
among the startup-required keys nor even among the attributes src/config.py
defines — the missing key surfaces only when Stage 5 reads it, not at
startup. -/
theorem c3_generation_key_unchecked :
    startup_ok envGroqOnly = true
    ∧ "ANTHROPIC_API_KEY" ∈ script_generator_config_reads
    ∧ ¬ "ANTHROPIC_API_KEY" ∈ config_module_attrs
    ∧ ¬ "ANTHROPIC_API_KEY" ∈ config_startup_required := by decide
